import Mathlib

/-!
Verification of the wall-street repository: the backtest engine
(src/backtest_engine.py) and the dashboard report parsers (dashboard.py).

Modelling conventions.
Python floats are modelled as rationals (ℚ); calendar dates as integer day
counts (ℤ), so that a date difference in days is integer subtraction.
Python round (banker's rounding, round half to even) is modelled by
roundHE / pyRound.  A Python function that can raise an exception is
modelled as returning Option, with none standing for the raised exception;
a provider lookup that resolves to "absent" is likewise an Option at the
call site, with none standing for absent (fetch_close never raises).
-/

/-- Round half to even, the rounding mode of Python's builtin round. -/
def roundHE (q : ℚ) : ℤ :=
  let fl := ⌊q⌋
  let fr := q - fl
  if fr < 1/2 then fl
  else if 1/2 < fr then fl + 1
  else if fl % 2 = 0 then fl else fl + 1

/-- Python round(x, nd) for nd ≥ 1 digits after the decimal point. -/
def pyRound (q : ℚ) (nd : ℕ) : ℚ :=
  (roundHE (q * 10 ^ nd) : ℚ) / 10 ^ nd

/-- HOLD_DAYS = 21 (backtest_engine.py line 45). -/
def HOLD_DAYS : ℕ := 21

/-- MIN_AGE_DAYS = 5 (backtest_engine.py line 46). -/
def MIN_AGE_DAYS : ℤ := 5

/-- BUY_ACTIONS (backtest_engine.py line 47). -/
def BUY_ACTIONS : List String := ["BUY", "EXPLOSIVE BUY", "GOLDEN TRADE"]

/-- One record of logs/history.json, with the fields the engine reads:
ticker, date (day count), action, price. -/
structure Entry where
  ticker : String
  date : ℤ
  action : String
  price : ℚ
deriving Repr, DecidableEq

/-- Python str.upper(), character by character. -/
def upperStr (s : String) : String :=
  String.mk (s.toList.map Char.toUpper)

/-- The eligibility filter of run_backtest (backtest_engine.py lines 106-111):
action upper-cased is in BUY_ACTIONS, the signal is at least MIN_AGE_DAYS
old, and the recorded price is positive. -/
def eligibleB (today : ℤ) (e : Entry) : Bool :=
  BUY_ACTIONS.contains (upperStr e.action)
    && decide (today - e.date ≥ MIN_AGE_DAYS)
    && decide (e.price > 0)

/-- trading_days_after (backtest_engine.py lines 89-91):
signal_date + round(n * 7 / 5) calendar days. -/
def trading_days_after (signal_date : ℤ) (n : ℕ) : ℤ :=
  signal_date + roundHE ((n * 7 : ℚ) / 5)

/-- One evaluated trade, as appended to the trades list
(backtest_engine.py lines 140-150).  entry_price, exit_price, pct_return
and spy_return are stored rounded to two decimals, as in the source. -/
structure Trade where
  ticker : String
  date : ℤ
  action : String
  entry_price : ℚ
  exit_price : ℚ
  exit_date : ℤ
  pct_return : ℚ
  spy_return : Option ℚ
  won : Bool
deriving Repr, DecidableEq

/-- The benchmark return expression (backtest_engine.py line 136):
((spy_exit - spy_entry) / spy_entry) * 100 if (spy_entry and spy_exit)
else None.  Python truthiness makes both None and 0.0 fall to None. -/
def spy_return_calc (spy_entry spy_exit : Option ℚ) : Option ℚ :=
  match spy_entry, spy_exit with
  | some a, some b => if a ≠ 0 ∧ b ≠ 0 then some ((b - a) / a * 100) else none
  | _, _ => none

/-- The body of the evaluation loop for one eligible entry
(backtest_engine.py lines 115-150).  Returns none when the entry is
skipped (exit date not yet past, or exit price unresolved); otherwise the
produced Trade together with the unrounded benchmark return that is
appended to spy_returns. -/
def evalEntry (today : ℤ) (fetch : String → ℤ → Option ℚ) (e : Entry) :
    Option (Trade × Option ℚ) :=
  let exit_date := trading_days_after e.date HOLD_DAYS
  if exit_date ≥ today then none
  else
    match fetch e.ticker exit_date with
    | none => none
    | some exit_price =>
      let pct_return := (exit_price - e.price) / e.price * 100
      let won := decide (pct_return > 0)
      let spy_entry := fetch "SPY" e.date
      let spy_exit := fetch "SPY" exit_date
      let spy_ret := spy_return_calc spy_entry spy_exit
      some ({ ticker := e.ticker, date := e.date, action := e.action,
              entry_price := pyRound e.price 2, exit_price := pyRound exit_price 2,
              exit_date := exit_date, pct_return := pyRound pct_return 2,
              spy_return := spy_ret.map (pyRound · 2), won := won }, spy_ret)

/-- Number of price-provider lookups (fetch_close invocations) issued for
one eligible entry by the loop body (backtest_engine.py lines 121-135):
none when the outcome is not yet known, one for the ticker exit price,
and when that resolves, two more for the SPY benchmark (entry and exit
dates). -/
def callsPerEligible (today : ℤ) (fetch : String → ℤ → Option ℚ) (e : Entry) : ℕ :=
  let exit_date := trading_days_after e.date HOLD_DAYS
  if exit_date ≥ today then 0
  else
    match fetch e.ticker exit_date with
    | none => 1
    | some _ => 3

/-- The accumulation of trades and spy_returns across the loop
(backtest_engine.py lines 103-104, 137-150). -/
def loopStep (today : ℤ) (fetch : String → ℤ → Option ℚ)
    (acc : List Trade × List ℚ) (e : Entry) : List Trade × List ℚ :=
  match evalEntry today fetch e with
  | none => acc
  | some (tr, sr) =>
    (acc.1 ++ [tr], acc.2 ++ (match sr with | some v => [v] | none => []))

/-- win_rate (backtest_engine.py line 170), None for an empty trade list. -/
def winRateOf (trades : List Trade) : Option ℚ :=
  if trades.isEmpty then none
  else some (pyRound (((trades.filter (·.won)).length : ℚ) / (trades.length : ℚ) * 100) 1)

/-- avg_return value for a non-empty trade list (backtest_engine.py line 171). -/
def avgReturnVal (trades : List Trade) : ℚ :=
  pyRound ((trades.map (·.pct_return)).sum / (trades.length : ℚ)) 2

/-- profit_factor (backtest_engine.py lines 168-175): None for an empty
trade list (the early-return branch) and None when the gross loss is not
positive; otherwise gross gains over gross losses, rounded. -/
def profitFactorOf (trades : List Trade) : Option ℚ :=
  if trades.isEmpty then none
  else
    let wins := trades.filter (·.won)
    let losses := trades.filter (fun t => !t.won)
    let gross_gain := (wins.map (·.pct_return)).sum
    let gross_loss := |(losses.map (·.pct_return)).sum|
    if gross_loss > 0 then some (pyRound (gross_gain / gross_loss) 2) else none

/-- avg_spy (backtest_engine.py line 177): mean of the resolved benchmark
returns, None when there are none. -/
def avgSpyOf (spy_returns : List ℚ) : Option ℚ :=
  if spy_returns.isEmpty then none
  else some (pyRound (spy_returns.sum / (spy_returns.length : ℚ)) 2)

/-- alpha (backtest_engine.py line 178): avg_return minus avg_spy when the
latter is defined, else None. -/
def alphaOf (avg_return : ℚ) (avg_spy : Option ℚ) : Option ℚ :=
  avg_spy.map (fun a => pyRound (avg_return - a) 2)

/-- The result dictionary of run_backtest
(backtest_engine.py lines 152-164 and 180-188). -/
structure Summary where
  generated_at : ℤ
  data_points : ℕ
  win_rate : Option ℚ
  profit_factor : Option ℚ
  alpha_vs_spy : Option ℚ
  avg_return : Option ℚ
  trades : List Trade
deriving Repr, DecidableEq

/-- run_backtest (backtest_engine.py lines 94-198), as a function of the
parsed history, the current date, and the price provider (fetch_close). -/
def run_backtest (history : List Entry) (today : ℤ)
    (fetch : String → ℤ → Option ℚ) : Summary :=
  let p := (history.filter (eligibleB today)).foldl (loopStep today fetch) ([], [])
  if p.1.isEmpty then
    { generated_at := today, data_points := 0, win_rate := none,
      profit_factor := none, alpha_vs_spy := none, avg_return := none,
      trades := [] }
  else
    { generated_at := today, data_points := p.1.length,
      win_rate := winRateOf p.1,
      profit_factor := profitFactorOf p.1,
      alpha_vs_spy := alphaOf (avgReturnVal p.1) (avgSpyOf p.2),
      avg_return := some (avgReturnVal p.1),
      trades := p.1 }

/-!
The dashboard report parsers (dashboard.py, parse_opportunities lines
352-382 and parse_performance lines 405-431).  Lines are handled as lists
of characters; Python str.strip / str.split / the two regular expressions
used on cells are modelled character by character.
-/

/-- Python str.strip() on a line: drop whitespace at both ends. -/
def trimL (cs : List Char) : List Char :=
  ((cs.dropWhile (·.isWhitespace)).reverse.dropWhile (·.isWhitespace)).reverse

/-- line.startswith("|"). -/
def startsPipe : List Char → Bool
  | '|' :: _ => true
  | _ => false

/-- re.match of a separator rule: a pipe, optional whitespace, then a dash
(dashboard.py lines 362 and 414). -/
def isSepL (cs : List Char) : Bool :=
  match cs with
  | '|' :: rest =>
    match rest.dropWhile (·.isWhitespace) with
    | '-' :: _ => true
    | _ => false
  | _ => false

/-- Python s.split("|"): split at every pipe, keeping empty pieces. -/
def splitPipe : List Char → List (List Char)
  | [] => [[]]
  | c :: rest =>
    match splitPipe rest with
    | [] => [[c]]
    | h :: t => if c == '|' then [] :: h :: t else (c :: h) :: t

/-- Python s.strip("|"): drop pipe characters at both ends. -/
def stripPipes (cs : List Char) : List Char :=
  ((cs.dropWhile (· == '|')).reverse.dropWhile (· == '|')).reverse

/-- The cell list of an in-table line (dashboard.py lines 367 and 419):
strip pipes, split at pipes, trim each cell. -/
def splitCells (cs : List Char) : List (List Char) :=
  (splitPipe (stripPipes cs)).map trimL

/-- Python substring containment (the in operator on str). -/
def isSub (pat cs : List Char) : Bool :=
  cs.tails.any (fun t => pat.isPrefixOf t)

/-- Header signature of the opportunity table (dashboard.py line 357). -/
def oppHeader (cs : List Char) : Bool :=
  isSub "| Ticker |".toList cs && isSub "Sector ETF".toList cs

/-- Header signature of the results table (dashboard.py line 409). -/
def perfHeader (cs : List Char) : Bool :=
  isSub "| Ticker |".toList cs && isSub "Return %".toList cs

/-- Numeric value of a digit string. -/
def digitsVal (cs : List Char) : Option ℕ :=
  if cs = [] then none
  else if cs.all (·.isDigit) then
    some (cs.foldl (fun a c => a * 10 + (c.toNat - 48)) 0)
  else none

/-- Python int(s) on a sign-and-digits string; none models the
ValueError raised when s is not a valid integer literal. -/
def pyInt (cs : List Char) : Option ℤ :=
  match cs with
  | '-' :: rest => (digitsVal rest).map (fun n => -(n : ℤ))
  | '+' :: rest => (digitsVal rest).map (fun n => (n : ℤ))
  | _ => (digitsVal cs).map (fun n => (n : ℤ))

/-- The score-cell extraction (dashboard.py lines 370 and 374):
re.sub keeps digits and dashes, an empty remainder defaults to 0,
otherwise int() is applied — which raises (none) on strings such as
a lone dash. -/
def scoreCellParse (cell : List Char) : Option ℤ :=
  let raw := cell.filter (fun c => c.isDigit || c == '-')
  if raw = [] then some 0 else pyInt raw

/-- Numeric value of a digit string, as a rational. -/
def natValQ (cs : List Char) : ℚ :=
  ((cs.foldl (fun a c => a * 10 + (c.toNat - 48)) 0 : ℕ) : ℚ)

/-- Python float(s) on a string drawn from sign, digits and dots; none
models the ValueError raised when s is not a valid float literal. -/
def pyFloat (cs : List Char) : Option ℚ :=
  let sr : ℚ × List Char :=
    match cs with
    | '-' :: r => (-1, r)
    | '+' :: r => (1, r)
    | _ => (1, cs)
  let ip := sr.2.takeWhile (·.isDigit)
  let rest := sr.2.dropWhile (·.isDigit)
  match rest with
  | [] => if ip = [] then none else some (sr.1 * natValQ ip)
  | '.' :: fr =>
    if fr.all (·.isDigit) && !(ip = [] && fr = []) then
      some (sr.1 * (natValQ ip + natValQ fr / 10 ^ fr.length))
    else none
  | _ => none

/-- A character matched by the class of digits and dots. -/
def digDot (c : Char) : Bool := c.isDigit || c == '.'

/-- One attempt of the return-percent pattern (an optional sign, a run of
digits and dots, then a percent sign) at the head of the string. -/
def pctMatchHere (cs : List Char) : Option (List Char) :=
  let sr : List Char × List Char :=
    match cs with
    | c :: r => if c == '+' || c == '-' then ([c], r) else ([], cs)
    | [] => ([], [])
  let run := sr.2.takeWhile digDot
  let after := sr.2.dropWhile digDot
  if run ≠ [] && after.head? == some '%' then some (sr.1 ++ run) else none

/-- re.search of the return-percent pattern: the leftmost match. -/
def firstPct : List Char → Option (List Char)
  | [] => none
  | c :: rest =>
    match pctMatchHere (c :: rest) with
    | some g => some g
    | none => firstPct rest

/-- The return-percent cell extraction (dashboard.py lines 422 and 427):
no match defaults to 0.0, otherwise float() on the matched group — which
raises (none) on groups such as repeated dots. -/
def pctCellParse (cell : List Char) : Option ℚ :=
  match firstPct cell with
  | none => some 0
  | some g => pyFloat g

/-- A parsed opportunity-table row (dashboard.py lines 371-380). -/
structure OppRow where
  ticker : String
  action : String
  score : ℤ
  sector : String
  certainty : String
  eps_surprise : String
  rs_1d : String
  stop_loss : String
deriving Repr, DecidableEq

/-- Build an opportunity row from a cell list of length at least 10
(dashboard.py lines 370-380); none models a raised ValueError. -/
def mkOppRow (cells : List (List Char)) : Option OppRow :=
  match scoreCellParse (cells.getD 3 []) with
  | none => none
  | some n => some
      { ticker := String.mk (cells.getD 0 []),
        action := String.mk (trimL ((cells.getD 2 []).filter (fun c => c != '*'))),
        score := n,
        sector := String.mk (cells.getD 1 []),
        certainty := String.mk (cells.getD 4 []),
        eps_surprise := String.mk (cells.getD 5 []),
        rs_1d := String.mk (cells.getD 6 []),
        stop_loss := String.mk (cells.getD 9 []) }

/-- A parsed results-table row (dashboard.py lines 423-429). -/
structure PerfRow where
  ticker : String
  date : String
  action : String
  pct_change : ℚ
  win : Bool
deriving Repr, DecidableEq

/-- Build a results row from a cell list of length at least 8
(dashboard.py lines 422-429); none models a raised ValueError. -/
def mkPerfRow (cells : List (List Char)) : Option PerfRow :=
  match pctCellParse (cells.getD 6 []) with
  | none => none
  | some p => some
      { ticker := String.mk (cells.getD 0 []),
        date := String.mk (cells.getD 1 []),
        action := String.mk (cells.getD 2 []),
        pct_change := p,
        win := (trimL (cells.getD 7 [])).map Char.toUpper == "YES".toList }

/-- One step of the table state machine shared by both parsers
(dashboard.py lines 355-380 and 407-429): header signature turns the
in-table flag on, separator rules are skipped, a line not starting with a
pipe turns the flag off, rows with too few cells are dropped, remaining
rows are built and appended.  The accumulator is none once a row build
has raised. -/
def rowStep {α : Type} (hdr : List Char → Bool) (minCells : ℕ)
    (mk : List (List Char) → Option α)
    (st : Bool × Option (List α)) (rawLine : String) : Bool × Option (List α) :=
  let l := trimL rawLine.toList
  if hdr l then (true, st.2)
  else if !st.1 then st
  else if isSepL l then (true, st.2)
  else if !startsPipe l then (false, st.2)
  else
    let cells := splitCells l
    if cells.length < minCells then (true, st.2)
    else
      (true, match st.2, mk cells with
        | some rs, some r => some (rs ++ [r])
        | _, _ => none)

/-- The opportunity-table rows of a report text given as lines
(dashboard.py lines 353-381). -/
def parseOppRows (lines : List String) : Option (List OppRow) :=
  (lines.foldl (rowStep oppHeader 10 mkOppRow) (false, some [])).2

/-- The results-table rows of a report text given as lines
(dashboard.py lines 405-430). -/
def parsePerfRows (lines : List String) : Option (List PerfRow) :=
  (lines.foldl (rowStep perfHeader 8 mkPerfRow) (false, some [])).2

/-!
The Polygon price client (backtest_engine.py lines 53-84).  The external
world is a parameter: the configured API key and the HTTP transport,
which for a request (ticker, target date — the range, sort and limit
parameters are determined by these) either fails or yields a status code
and a parsed body of daily bars.
-/

/-- One daily bar of an aggregates response; only the close is read. -/
structure Bar where
  c : ℚ
deriving Repr, DecidableEq

/-- The parsed JSON body of an aggregates response. -/
structure PolyBody where
  results : List Bar
deriving Repr, DecidableEq

/-- Outcome of one HTTP GET: a transport failure or a status with body. -/
inductive HttpResult where
  | transportFailure : HttpResult
  | response : ℕ → PolyBody → HttpResult
deriving Repr, DecidableEq

/-- The provider environment: credential and transport. -/
structure PolyEnv where
  apiKey : String
  http : String → ℤ → HttpResult

/-- _polygon_get (backtest_engine.py lines 53-68): no key, a transport
error, or a non-200 status all yield None; a 200 response yields the
parsed body. -/
def polygon_get (env : PolyEnv) (ticker : String) (target_date : ℤ) :
    Option PolyBody :=
  if env.apiKey = "" then none
  else
    match env.http ticker target_date with
    | HttpResult.transportFailure => none
    | HttpResult.response status body =>
      if status = 200 then some body else none

/-- fetch_close (backtest_engine.py lines 71-84): the close of the first
bar of the response for the forward window, None when the request failed
or no bar exists. -/
def fetch_close (env : PolyEnv) (ticker : String) (target_date : ℤ) :
    Option ℚ :=
  match polygon_get env ticker target_date with
  | none => none
  | some body =>
    match body.results with
    | [] => none
    | bar :: _ => some bar.c

/-- C2: a history record is eligible for outcome evaluation iff its
action (upper-cased, as the source compares) is in the buy-class action
set, its age in days is at least MIN_AGE_DAYS — so exactly MIN_AGE_DAYS
is included and MIN_AGE_DAYS - 1 is excluded by the ≥ — and its price is
strictly positive; falsifying any one conjunct falsifies the left side. -/
theorem c2_eligibility_iff (today : ℤ) (e : Entry) :
    eligibleB today e = true ↔
      (upperStr e.action ∈ BUY_ACTIONS ∧ MIN_AGE_DAYS ≤ today - e.date ∧ 0 < e.price) := by
  simp [eligibleB, and_assoc, ge_iff_le]

/-- C6: fetch_close resolves to none — it is a total function, so it
never raises or aborts — when the credential is missing, when the
transport fails, when the provider answers with a non-200 status, or
when the response holds no daily bar; otherwise it is the close of the
first bar of the forward-window response. -/
theorem c6_fetch_close_cases (env : PolyEnv) (ticker : String) (d : ℤ) :
    (env.apiKey = "" → fetch_close env ticker d = none) ∧
    (env.http ticker d = HttpResult.transportFailure →
      fetch_close env ticker d = none) ∧
    (∀ status body, env.http ticker d = HttpResult.response status body →
      status ≠ 200 → fetch_close env ticker d = none) ∧
    (∀ status body, env.http ticker d = HttpResult.response status body →
      body.results = [] → fetch_close env ticker d = none) ∧
    (∀ status body bar rest, env.apiKey ≠ "" →
      env.http ticker d = HttpResult.response status body → status = 200 →
      body.results = bar :: rest → fetch_close env ticker d = some bar.c) := by
  refine ⟨fun hk => ?_, fun ht => ?_, fun s b hr hs => ?_, fun s b hr hb => ?_,
          fun s b bar rest hk hr hs hb => ?_⟩
  · simp [fetch_close, polygon_get, hk]
  · simp [fetch_close, polygon_get, ht]
  · simp only [fetch_close, polygon_get, hr]
    by_cases hk : env.apiKey = "" <;> simp [hk, hs]
  · simp only [fetch_close, polygon_get, hr]
    by_cases hk : env.apiKey = ""
    · simp [hk]
    · by_cases hs2 : s = 200 <;> simp [hk, hs2, hb]
  · simp [fetch_close, polygon_get, hr, hk, hs, hb]

/-- C6 witness: a configured environment whose transport returns one bar
with close 5 resolves to 5. -/
theorem c6_fetch_close_cases_witness :
    fetch_close
      { apiKey := "k",
        http := fun _ _ => HttpResult.response 200 { results := [{ c := 5 }] } }
      "NVDA" 0 = some (5 : ℚ) :=
  (c6_fetch_close_cases _ "NVDA" 0).2.2.2.2 200 { results := [{ c := 5 }] }
    { c := 5 } [] (by simp) rfl rfl rfl

/-- C3: the numeric cell extractions of the dashboard parsers are not
total: the score extraction (keep digits and dashes, empty defaults to
0, otherwise int()) raises — modelled as none — on a cell consisting of
a lone dash, and the return-percent extraction (regex search, no match
defaults to 0.0, otherwise float()) raises on a cell whose matched group
is dots only; well-formed and unmatched cells behave as described. -/
theorem c3_numeric_cells :
    scoreCellParse "-".toList = none ∧
    scoreCellParse "5-3".toList = none ∧
    scoreCellParse "**85**".toList = some 85 ∧
    scoreCellParse "n/a".toList = some 0 ∧
    pctCellParse "..%".toList = none ∧
    pctCellParse "+10.0%".toList = some 10 ∧
    pctCellParse "-3.5%".toList = some (-7/2) ∧
    pctCellParse "n/a".toList = some 0 := by
  have f10 : natValQ ['1', '0'] = (10 : ℚ) := by
    have h : (['1', '0'].foldl (fun a c => a * 10 + (c.toNat - 48)) 0) = 10 := by decide
    simp [natValQ, h]
  have f0 : natValQ ['0'] = (0 : ℚ) := by
    have h : (['0'].foldl (fun a c => a * 10 + (c.toNat - 48)) 0) = 0 := by decide
    simp [natValQ, h]
  have f3 : natValQ ['3'] = (3 : ℚ) := by
    have h : (['3'].foldl (fun a c => a * 10 + (c.toNat - 48)) 0) = 3 := by decide
    simp [natValQ, h]
  have f5 : natValQ ['5'] = (5 : ℚ) := by
    have h : (['5'].foldl (fun a c => a * 10 + (c.toNat - 48)) 0) = 5 := by decide
    simp [natValQ, h]
  refine ⟨by decide, by decide, by decide, by decide, rfl, ?_, ?_, rfl⟩
  · show some ((1 : ℚ) * (natValQ ['1', '0'] + natValQ ['0'] / 10 ^ 1)) = some 10
    rw [f10, f0]; norm_num
  · show some ((-1 : ℚ) * (natValQ ['3'] + natValQ ['5'] / 10 ^ 1)) = some (-7/2)
    rw [f3, f5]; norm_num

/-- C9 counterexample: an eligible BUY signal whose exit price resolves
causes three price-provider lookups (ticker exit, benchmark entry,
benchmark exit), not at most two. -/
theorem c9_counterexample :
    ¬ (callsPerEligible 100 (fun _ _ => some 4)
         { ticker := "AAA", date := 0, action := "BUY", price := 3 } ≤ 2) ∧
    callsPerEligible 100 (fun _ _ => some 4)
      { ticker := "AAA", date := 0, action := "BUY", price := 3 } = 3 ∧
    eligibleB 100 { ticker := "AAA", date := 0, action := "BUY", price := 3 } = true := by
  have h : callsPerEligible 100 (fun _ _ => some 4)
      { ticker := "AAA", date := 0, action := "BUY", price := 3 } = 3 := by
    have hd : trading_days_after 0 HOLD_DAYS = 29 := by
      norm_num [trading_days_after, roundHE, HOLD_DAYS]
    simp [callsPerEligible, hd]
  have helig : eligibleB 100
      { ticker := "AAA", date := 0, action := "BUY", price := 3 } = true := by
    have h1 : BUY_ACTIONS.contains (upperStr "BUY") = true := by decide
    have h3 : decide ((3 : ℚ) > 0) = true := by
      simp only [decide_eq_true_eq]
      norm_num
    simp [eligibleB, h1, h3]
    exact ⟨by decide, by decide⟩
  refine ⟨fun hle => ?_, h, helig⟩
  rw [h] at hle
  omega

/-- C9 amended: the loop issues at most three price-provider lookups per
eligible signal — none when the outcome is not yet known, one when the
ticker exit price does not resolve, and three (ticker exit, benchmark
entry, benchmark exit) when it does. -/
theorem c9_calls_at_most_three (today : ℤ)
    (fetch : String → ℤ → Option ℚ) (e : Entry) :
    callsPerEligible today fetch e ≤ 3 := by
  unfold callsPerEligible
  by_cases h : trading_days_after e.date HOLD_DAYS ≥ today
  · simp [h]
  · simp only [h, if_false]
    cases fetch e.ticker (trading_days_after e.date HOLD_DAYS) <;> simp

/-- C8: the run is a deterministic function of the parsed event log, the
current date and the price-provider response function: two runs over
providers with identical responses produce identical summaries. -/
theorem c8_run_deterministic (history : List Entry) (today : ℤ)
    (f g : String → ℤ → Option ℚ)
    (h : ∀ ticker d, f ticker d = g ticker d) :
    run_backtest history today f = run_backtest history today g := by
  have hfg : f = g := funext fun ticker => funext fun d => h ticker d
  rw [hfg]

/-- C5: every produced summary has data_points equal to the length of its
trade list, and its four metrics — win rate, profit factor, alpha and
average return — are jointly none exactly when the trade list is empty
(for a non-empty list the win rate and average return are always some,
so joint nullity forces emptiness, while partial nullity remains
possible). -/
theorem c5_summary_invariant (history : List Entry) (today : ℤ)
    (fetch : String → ℤ → Option ℚ) :
    (run_backtest history today fetch).data_points =
      (run_backtest history today fetch).trades.length ∧
    (((run_backtest history today fetch).win_rate = none ∧
      (run_backtest history today fetch).profit_factor = none ∧
      (run_backtest history today fetch).alpha_vs_spy = none ∧
      (run_backtest history today fetch).avg_return = none) ↔
      (run_backtest history today fetch).trades = []) := by
  unfold run_backtest
  set p := (history.filter (eligibleB today)).foldl (loopStep today fetch) ([], []) with hp
  by_cases h : p.1.isEmpty
  · simp [h]
  · have h' : p.1 ≠ [] := by simpa [List.isEmpty_iff] using h
    simp [h, winRateOf, h']

/-- C4 counterexample: the produced Trade stores pct_return rounded to
two decimals, so with entry 3 and exit 4 the stored value 33.33 differs
from (4 - 3) / 3 * 100; and won is computed from the unrounded return, so
with entry 100000 and exit 100001 the stored pct_return is 0 while won is
true — won is not (stored pctReturn > 0). -/
theorem c4_counterexample :
    ((evalEntry 100 (fun _ _ => some 4)
        { ticker := "AAA", date := 0, action := "BUY", price := 3 }).map
      (fun pr => pr.1.pct_return)) = some (3333/100) ∧
    (3333/100 : ℚ) ≠ (4 - 3) / 3 * 100 ∧
    ((evalEntry 100 (fun _ _ => some 100001)
        { ticker := "BBB", date := 0, action := "BUY", price := 100000 }).map
      (fun pr => (pr.1.pct_return, pr.1.won))) = some (0, true) := by
  have hd : trading_days_after 0 HOLD_DAYS = 29 := by
    norm_num [trading_days_after, roundHE, HOLD_DAYS]
  refine ⟨?_, by norm_num, ?_⟩
  · simp only [evalEntry, hd]
    norm_num [pyRound, roundHE]
  · simp only [evalEntry, hd]
    norm_num [pyRound, roundHE]

/-- C4 amended: for an eligible signal with entry price e.price > 0 whose
exit price resolves to x, the produced Trade stores
pct_return = round((x - e.price) / e.price * 100, 2) and
won = ((x - e.price) / e.price * 100 > 0) computed from the unrounded
return; a trade with exactly zero return still has won = false. -/
theorem c4_trade_return_and_won (today : ℤ) (fetch : String → ℤ → Option ℚ)
    (e : Entry) (x : ℚ)
    (_hpos : 0 < e.price)
    (hd : trading_days_after e.date HOLD_DAYS < today)
    (hf : fetch e.ticker (trading_days_after e.date HOLD_DAYS) = some x) :
    ∃ tr sr, evalEntry today fetch e = some (tr, sr) ∧
      tr.pct_return = pyRound ((x - e.price) / e.price * 100) 2 ∧
      tr.won = decide ((x - e.price) / e.price * 100 > 0) ∧
      (x = e.price → tr.won = false) := by
  unfold evalEntry
  rw [if_neg (not_le.mpr hd), hf]
  refine ⟨_, _, rfl, rfl, rfl, fun hx => ?_⟩
  simp [hx]

/-- C4 witness: entry 100 and stub exit 110 give the 10 percent winning
trade of the specification's synthetic test. -/
theorem c4_trade_return_and_won_witness :
    ∃ tr sr, evalEntry 100 (fun _ _ => some 110)
        { ticker := "AAA", date := 0, action := "BUY", price := 100 } = some (tr, sr) ∧
      tr.pct_return = pyRound (((110 : ℚ) - 100) / 100 * 100) 2 ∧
      tr.won = decide (((110 : ℚ) - 100) / 100 * 100 > 0) ∧
      ((110 : ℚ) = 100 → tr.won = false) :=
  c4_trade_return_and_won 100 (fun _ _ => some 110)
    { ticker := "AAA", date := 0, action := "BUY", price := 100 } 110
    (show (0 : ℚ) < 100 by norm_num)
    (show trading_days_after 0 HOLD_DAYS < 100 by
      norm_num [trading_days_after, roundHE, HOLD_DAYS])
    rfl

/-- C10: no division of the evaluator divides by zero — eligibility makes
the entry price (the denominator of the signal return) nonzero, the
benchmark return is computed only when the benchmark entry price is
resolved and nonzero, a benchmark entry close of exactly 0 yields an
absent benchmark return, and the trade is still produced with
spy_return = none in that case. -/
theorem c10_no_division_by_zero (today : ℤ) (fetch : String → ℤ → Option ℚ)
    (e : Entry) (x : ℚ)
    (helig : eligibleB today e = true)
    (hd : trading_days_after e.date HOLD_DAYS < today)
    (hf : fetch e.ticker (trading_days_after e.date HOLD_DAYS) = some x)
    (hspy : fetch "SPY" e.date = some 0) :
    e.price ≠ 0 ∧
    (∀ a b : Option ℚ, spy_return_calc a b ≠ none → ∃ v, a = some v ∧ v ≠ 0) ∧
    (∀ b : Option ℚ, spy_return_calc (some 0) b = none) ∧
    (∃ tr, evalEntry today fetch e = some (tr, none) ∧ tr.spy_return = none) := by
  have hcalc : spy_return_calc (fetch "SPY" e.date)
      (fetch "SPY" (trading_days_after e.date HOLD_DAYS)) = none := by
    rw [hspy]
    cases fetch "SPY" (trading_days_after e.date HOLD_DAYS) <;> simp [spy_return_calc]
  refine ⟨?_, ?_, ?_, ?_⟩
  · have h := helig
    simp [eligibleB, and_assoc] at h
    exact ne_of_gt h.2.2
  · intro a b hne
    cases a with
    | none => simp [spy_return_calc] at hne
    | some v =>
      cases b with
      | none => simp [spy_return_calc] at hne
      | some w =>
        by_cases hv : v = 0
        · simp [spy_return_calc, hv] at hne
        · exact ⟨v, rfl, hv⟩
  · intro b
    cases b <;> simp [spy_return_calc]
  · refine ⟨{ ticker := e.ticker, date := e.date, action := e.action,
              entry_price := pyRound e.price 2, exit_price := pyRound x 2,
              exit_date := trading_days_after e.date HOLD_DAYS,
              pct_return := pyRound ((x - e.price) / e.price * 100) 2,
              spy_return := none,
              won := decide ((x - e.price) / e.price * 100 > 0) }, ?_, rfl⟩
    unfold evalEntry
    rw [if_neg (not_le.mpr hd), hf]
    simp [hcalc]

/-- C10 witness: an eligible signal with entry 3, stub exit 4, and a
benchmark whose entry close is exactly 0. -/
theorem c10_no_division_by_zero_witness :
    ({ ticker := "AAA", date := 0, action := "BUY", price := 3 } : Entry).price ≠ 0 ∧
    (∀ a b : Option ℚ, spy_return_calc a b ≠ none → ∃ v, a = some v ∧ v ≠ 0) ∧
    (∀ b : Option ℚ, spy_return_calc (some 0) b = none) ∧
    (∃ tr, evalEntry 100 (fun tk _ => if tk = "SPY" then some 0 else some 4)
        { ticker := "AAA", date := 0, action := "BUY", price := 3 } = some (tr, none) ∧
      tr.spy_return = none) := by
  have helig : eligibleB 100
      { ticker := "AAA", date := 0, action := "BUY", price := 3 } = true := by
    have h1 : BUY_ACTIONS.contains (upperStr "BUY") = true := by decide
    have h3 : decide ((3 : ℚ) > 0) = true := by
      simp only [decide_eq_true_eq]
      norm_num
    simp [eligibleB, h1, h3]
    exact ⟨by decide, by decide⟩
  refine c10_no_division_by_zero 100 _ _ 4 helig ?_ ?_ ?_
  · show trading_days_after 0 HOLD_DAYS < 100
    norm_num [trading_days_after, roundHE, HOLD_DAYS]
  · show (if ("AAA" : String) = "SPY" then some (0 : ℚ) else some 4) = some 4
    rw [if_neg (by decide)]
  · show (if ("SPY" : String) = "SPY" then some (0 : ℚ) else some 4) = some 0
    rw [if_pos rfl]

/-- Sum of a list of nonpositive rationals. -/
lemma list_sum_nonpos (l : List ℚ) (h : ∀ x ∈ l, x ≤ 0) : l.sum ≤ 0 := by
  induction l with
  | nil => simp
  | cons a t ih =>
    have ha : a ≤ 0 := h a (by simp)
    have ht : t.sum ≤ 0 := ih (fun x hx => h x (by simp [hx]))
    simpa using add_nonpos ha ht

/-- A sum of nonpositive rationals vanishes exactly when every term does. -/
lemma list_sum_nonpos_eq_zero_iff (l : List ℚ) (h : ∀ x ∈ l, x ≤ 0) :
    l.sum = 0 ↔ ∀ x ∈ l, x = 0 := by
  induction l with
  | nil => simp
  | cons a t ih =>
    have ha : a ≤ 0 := h a (by simp)
    have ht : ∀ x ∈ t, x ≤ 0 := fun x hx => h x (by simp [hx])
    have hts : t.sum ≤ 0 := list_sum_nonpos t ht
    constructor
    · intro hs
      have ha0 : a = 0 := by
        have : a + t.sum = 0 := by simpa using hs
        linarith
      have hts0 : t.sum = 0 := by
        have : a + t.sum = 0 := by simpa using hs
        linarith
      intro x hx
      rcases List.mem_cons.mp hx with hxa | hxt
      · rw [hxa, ha0]
      · exact ((ih ht).mp hts0) x hxt
    · intro hall
      have : ∀ x ∈ a :: t, x = 0 := hall
      simp [this a (by simp), (ih ht).mpr (fun x hx => hall x (by simp [hx]))]

/-- C1 counterexample: a single losing trade with exactly zero return
(entry equals exit) makes the gross loss zero, so profit_factor is none
even though the list contains a losing trade. -/
theorem c1_counterexample :
    profitFactorOf [{ ticker := "AAA", date := 0, action := "BUY",
                      entry_price := 100, exit_price := 100, exit_date := 29,
                      pct_return := 0, spy_return := none, won := false }] = none ∧
    (([{ ticker := "AAA", date := 0, action := "BUY",
         entry_price := 100, exit_price := 100, exit_date := 29,
         pct_return := 0, spy_return := none, won := false }] : List Trade).filter
        (fun t => !t.won)) ≠ [] := by
  constructor
  · norm_num [profitFactorOf]
  · simp

/-- C1 amended: over trades produced by the evaluator (where a losing
trade has nonpositive stored return), profit_factor is none iff every
losing trade has stored return exactly zero — so it is none for the
empty list, and some whenever a strictly negative losing trade exists. -/
theorem c1_profit_factor_none_iff (trades : List Trade)
    (h : ∀ t ∈ trades, t.won = false → t.pct_return ≤ 0) :
    profitFactorOf trades = none ↔
      ∀ t ∈ trades, t.won = false → t.pct_return = 0 := by
  rcases trades with _ | ⟨a, l⟩
  · simp [profitFactorOf]
  · have hL : ∀ x ∈ ((a :: l).filter (fun t => !t.won)).map (·.pct_return), x ≤ 0 := by
      intro x hx
      rcases List.mem_map.mp hx with ⟨t, htf, hxe⟩
      rcases List.mem_filter.mp htf with ⟨htm, htw⟩
      exact hxe ▸ h t htm (by simpa using htw)
    have key := list_sum_nonpos_eq_zero_iff _ hL
    have habs : |(((a :: l).filter (fun t => !t.won)).map (·.pct_return)).sum| > 0 ↔
        ¬ (((a :: l).filter (fun t => !t.won)).map (·.pct_return)).sum = 0 := by
      simp [gt_iff_lt, abs_pos]
    constructor
    · intro hnone t htm htw
      by_cases hgl : |(((a :: l).filter (fun t => !t.won)).map (·.pct_return)).sum| > 0
      · simp [profitFactorOf, hgl] at hnone
      · have hS0 : (((a :: l).filter (fun t => !t.won)).map (·.pct_return)).sum = 0 := by
          by_contra hne
          exact hgl (habs.mpr hne)
        have := key.mp hS0
        exact this t.pct_return (List.mem_map.mpr
          ⟨t, List.mem_filter.mpr ⟨htm, by simp [htw]⟩, rfl⟩)
    · intro hall
      have hS : (((a :: l).filter (fun t => !t.won)).map (·.pct_return)).sum = 0 := by
        apply key.mpr
        intro x hx
        rcases List.mem_map.mp hx with ⟨t, htf, hxe⟩
        rcases List.mem_filter.mp htf with ⟨htm, htw⟩
        exact hxe ▸ hall t htm (by simpa using htw)
      simp [profitFactorOf, hS]

/-- C1 witness: one strictly losing trade gives a defined (non-none)
profit factor, matching the amended iff. -/
theorem c1_profit_factor_none_iff_witness :
    profitFactorOf [{ ticker := "AAA", date := 0, action := "BUY",
                      entry_price := 100, exit_price := 95, exit_date := 29,
                      pct_return := -5, spy_return := none, won := false }] = none ↔
      ∀ t ∈ [({ ticker := "AAA", date := 0, action := "BUY",
                entry_price := 100, exit_price := 95, exit_date := 29,
                pct_return := -5, spy_return := none, won := false } : Trade)],
        t.won = false → t.pct_return = 0 :=
  c1_profit_factor_none_iff _ (by
    intro t ht hw
    rw [List.mem_singleton] at ht
    subst ht
    norm_num)

/-- One step of either table parser leaves the state unchanged on a line
that trims to a pipe-initial non-header line with too few cells. -/
lemma rowStep_skip {α : Type} (hdr : List Char → Bool) (minCells : ℕ)
    (mk : List (List Char) → Option α) (st : Bool × Option (List α)) (line : String)
    (hh : hdr (trimL line.toList) = false)
    (hp : startsPipe (trimL line.toList) = true)
    (hc : (splitCells (trimL line.toList)).length < minCells) :
    rowStep hdr minCells mk st line = st := by
  obtain ⟨b, acc⟩ := st
  have hh2 : hdr (trimL line.data) = false := hh
  have hp2 : startsPipe (trimL line.data) = true := hp
  have hc2 : (splitCells (trimL line.data)).length < minCells := hc
  cases b
  · simp [rowStep, hh2]
  · by_cases hs : isSepL (trimL line.data) <;>
      simp [rowStep, hh2, hs, hp2, hc2]

/-- Folding over a line list is unchanged by removing a line on which the
step function is the identity. -/
lemma foldl_skip_middle {α : Type}
    (f : (Bool × Option (List α)) → String → (Bool × Option (List α)))
    (L1 L2 : List String) (bad : String) (init : Bool × Option (List α))
    (hid : ∀ st, f st bad = st) :
    List.foldl f init (L1 ++ bad :: L2) = List.foldl f init (L1 ++ L2) := by
  rw [List.foldl_append, List.foldl_append, List.foldl_cons, hid]

/-- C7: a row line with fewer cells than the table's minimum (10 for the
opportunity table, 8 for the results table) that is not a header
signature is dropped without error: the parse of the surrounding lines is
exactly the parse with that line removed, so all well-formed neighboring
rows are kept unchanged. -/
theorem c7_malformed_row_dropped (L1 L2 : List String) (bad : String)
    (hp : startsPipe (trimL bad.toList) = true)
    (h1 : oppHeader (trimL bad.toList) = false)
    (h2 : perfHeader (trimL bad.toList) = false) :
    ((splitCells (trimL bad.toList)).length < 10 →
      parseOppRows (L1 ++ bad :: L2) = parseOppRows (L1 ++ L2)) ∧
    ((splitCells (trimL bad.toList)).length < 8 →
      parsePerfRows (L1 ++ bad :: L2) = parsePerfRows (L1 ++ L2)) := by
  constructor
  · intro hc
    unfold parseOppRows
    rw [foldl_skip_middle _ L1 L2 bad _
      (fun st => rowStep_skip oppHeader 10 mkOppRow st bad h1 hp hc)]
  · intro hc
    unfold parsePerfRows
    rw [foldl_skip_middle _ L1 L2 bad _
      (fun st => rowStep_skip perfHeader 8 mkPerfRow st bad h2 hp hc)]

/-- C7 witness: dropping a two-cell row between well-formed rows of both
tables leaves both parses unchanged. -/
theorem c7_malformed_row_dropped_witness :
    (parseOppRows
      (["| Ticker | Sector ETF | Action | Score | C | E | R | A | B | Stop |",
        "| NVDA | SMH | BUY | 85 | High | Yes | 2 | a | b | 100 |",
        "| Ticker | Date | Action | Score | Entry | Current | Return % | Win? |",
        "| NVDA | 2025-01-01 | BUY | 85 | 100 | 110 | +10.0% | YES |"] ++
       "| OOPS | 1 |" ::
       ["| AMD | 2025-01-02 | BUY | 80 | 50 | 45 | -10.0% | NO |"]) =
     parseOppRows
      (["| Ticker | Sector ETF | Action | Score | C | E | R | A | B | Stop |",
        "| NVDA | SMH | BUY | 85 | High | Yes | 2 | a | b | 100 |",
        "| Ticker | Date | Action | Score | Entry | Current | Return % | Win? |",
        "| NVDA | 2025-01-01 | BUY | 85 | 100 | 110 | +10.0% | YES |"] ++
       ["| AMD | 2025-01-02 | BUY | 80 | 50 | 45 | -10.0% | NO |"])) ∧
    (parsePerfRows
      (["| Ticker | Sector ETF | Action | Score | C | E | R | A | B | Stop |",
        "| NVDA | SMH | BUY | 85 | High | Yes | 2 | a | b | 100 |",
        "| Ticker | Date | Action | Score | Entry | Current | Return % | Win? |",
        "| NVDA | 2025-01-01 | BUY | 85 | 100 | 110 | +10.0% | YES |"] ++
       "| OOPS | 1 |" ::
       ["| AMD | 2025-01-02 | BUY | 80 | 50 | 45 | -10.0% | NO |"]) =
     parsePerfRows
      (["| Ticker | Sector ETF | Action | Score | C | E | R | A | B | Stop |",
        "| NVDA | SMH | BUY | 85 | High | Yes | 2 | a | b | 100 |",
        "| Ticker | Date | Action | Score | Entry | Current | Return % | Win? |",
        "| NVDA | 2025-01-01 | BUY | 85 | 100 | 110 | +10.0% | YES |"] ++
       ["| AMD | 2025-01-02 | BUY | 80 | 50 | 45 | -10.0% | NO |"])) :=
  ⟨(c7_malformed_row_dropped _ _ "| OOPS | 1 |" (by decide) (by decide) (by decide)).1
      (by decide),
   (c7_malformed_row_dropped _ _ "| OOPS | 1 |" (by decide) (by decide) (by decide)).2
      (by decide)⟩

/-- C8 witness: a concrete double run with the one-bar stub provider. -/
theorem c8_run_deterministic_witness :
    run_backtest [{ ticker := "AAA", date := 0, action := "BUY", price := 3 }] 100
      (fun _ _ => some 4) =
    run_backtest [{ ticker := "AAA", date := 0, action := "BUY", price := 3 }] 100
      (fun _ _ => some 4) :=
  c8_run_deterministic _ 100 _ _ (fun _ _ => rfl)
